import Mathlib

/-!
Shallow embedding of the admission-control and quota-tracking subsystem of
src/bot.py (class BotLimits, the save_json_data persistence helper, the
duration guard in handle_url, and the control flow of the download_video
callback handler), together with theorems checking the specification's
claims about them.

Python data is translated as follows: the persisted bot_data JSON document
becomes the structure BotData (its user_downloads_today dict, keyed by
str(user_id), becomes an association list with first-occurrence get/set
semantics); the in-memory set active_downloads becomes a duplicate-free
list built by set-style add and discard; each call to
save_json_data(BOT_DATA_FILE, ...) is logged in a saves field so frame
claims about persistence can be stated.
-/

/-- Association-list read with Python dict.get(k, 0) semantics:
the value at the first occurrence of the key, 0 when absent. -/
def dictGet (d : List (String × Nat)) (k : String) : Nat :=
  match d with
  | [] => 0
  | (k₁, v) :: rest => if k₁ = k then v else dictGet rest k

/-- Association-list write with Python dict assignment semantics:
replace the value at the first occurrence of the key, append when absent. -/
def dictSet (d : List (String × Nat)) (k : String) (v : Nat) : List (String × Nat) :=
  match d with
  | [] => [(k, v)]
  | (k₁, v₁) :: rest => if k₁ = k then (k, v) :: rest else (k₁, v₁) :: dictSet rest k v

/-- Sum of the values of an association list (Python sum(d.values())). -/
def sumValues (d : List (String × Nat)) : Nat :=
  (d.map Prod.snd).sum

/-- Python str(user_id): dict keys of user_downloads_today are strings. -/
def userKey (u : Nat) : String :=
  toString u

/-- Python set.add on a list representation of a set. -/
def setAdd (l : List Nat) (u : Nat) : List Nat :=
  if l.contains u then l else l ++ [u]

/-- Python set.discard on a list representation of a set. -/
def setDiscard (l : List Nat) (u : Nat) : List Nat :=
  l.filter (fun v => v != u)

/-- The persisted bot_data document of src/bot.py (BOT_DATA_FILE). -/
structure BotData where
  last_reset_date : String
  total_downloads_today : Nat
  users_today : List Nat
  user_downloads_today : List (String × Nat)
  total_users : Nat
  total_downloads_all_time : Nat
  bot_start_date : String
deriving Repr, DecidableEq

/-- The mutable state of the BotLimits instance: the in-memory
active_downloads set, the bot_data record, and a log of every
save_json_data(BOT_DATA_FILE, ...) call it performs. -/
structure LimitsState where
  active_downloads : List Nat
  bot_data : BotData
  saves : List BotData
deriving Repr, DecidableEq

/-- BotLimits.max_concurrent_downloads (src/bot.py line 91). -/
def max_concurrent_downloads : Nat := 2

/-- BotLimits.max_users_per_day (src/bot.py line 92). -/
def max_users_per_day : Nat := 2

/-- BotLimits.max_videos_per_user (src/bot.py line 93). -/
def max_videos_per_user : Nat := 2

/-- BotLimits.max_total_daily_downloads (src/bot.py line 94). -/
def max_total_daily_downloads : Nat := 3

/-- BotLimits.reset_daily_stats_if_needed (src/bot.py lines 112-131),
with the current calendar date str(datetime.now().date()) passed
explicitly: when the date differs from last_reset_date it zeroes
total_downloads_today, clears users_today and user_downloads_today,
stamps last_reset_date, clears active_downloads, and saves bot_data. -/
def reset_daily_stats_if_needed (s : LimitsState) (current_date : String) : LimitsState :=
  if current_date ≠ s.bot_data.last_reset_date then
    let bd : BotData :=
      { s.bot_data with
        last_reset_date := current_date
        total_downloads_today := 0
        users_today := []
        user_downloads_today := [] }
    { active_downloads := []
      bot_data := bd
      saves := s.saves ++ [bd] }
  else s

/-- Denial reasons of BotLimits.can_user_download, one per user-facing
message string returned at src/bot.py lines 139, 143, 147, 151, 157,
plus the success outcome of line 159. -/
inductive Reason where
  | AlreadyDownloading
  | ServerBusy
  | DailyTotalExceeded
  | DailyUserCapExceeded
  | PerUserCapExceeded
  | Allowed
deriving Repr, DecidableEq

/-- The five-way admission check at the heart of
BotLimits.can_user_download (src/bot.py lines 137-159), evaluated on a
given state; the rollover call on line 135 is modelled separately by
can_user_download below. -/
def can_user_download_check (s : LimitsState) (user_id : Nat) : Bool × Reason :=
  if user_id ∈ s.active_downloads then
    (false, Reason.AlreadyDownloading)
  else if max_concurrent_downloads ≤ s.active_downloads.length then
    (false, Reason.ServerBusy)
  else if max_total_daily_downloads ≤ s.bot_data.total_downloads_today then
    (false, Reason.DailyTotalExceeded)
  else if max_users_per_day ≤ s.bot_data.users_today.length
      ∧ user_id ∉ s.bot_data.users_today then
    (false, Reason.DailyUserCapExceeded)
  else if max_videos_per_user ≤ dictGet s.bot_data.user_downloads_today (userKey user_id) then
    (false, Reason.PerUserCapExceeded)
  else
    (true, Reason.Allowed)

/-- BotLimits.can_user_download (src/bot.py lines 133-159): roll the
state over if the day changed, then run the five-way check; the rolled
state is returned alongside the verdict because the rollover mutates
the instance. -/
def can_user_download (s : LimitsState) (current_date : String) (user_id : Nat) :
    (Bool × Reason) × LimitsState :=
  let s₁ := reset_daily_stats_if_needed s current_date
  (can_user_download_check s₁ user_id, s₁)

/-- BotLimits.start_download (src/bot.py lines 161-163). -/
def start_download (s : LimitsState) (user_id : Nat) : LimitsState :=
  { s with active_downloads := setAdd s.active_downloads user_id }

/-- BotLimits.complete_download (src/bot.py lines 165-186): always
discard from active_downloads; on success roll over if needed, bump
total_downloads_today and total_downloads_all_time, append the user to
users_today when absent, bump user_downloads_today[str(user_id)], and
save bot_data. -/
def complete_download (s : LimitsState) (current_date : String) (user_id : Nat)
    (success : Bool) : LimitsState :=
  let s₁ : LimitsState := { s with active_downloads := setDiscard s.active_downloads user_id }
  if success then
    let s₂ := reset_daily_stats_if_needed s₁ current_date
    let bd₁ : BotData :=
      { s₂.bot_data with
        total_downloads_today := s₂.bot_data.total_downloads_today + 1
        total_downloads_all_time := s₂.bot_data.total_downloads_all_time + 1 }
    let bd₂ : BotData :=
      if user_id ∈ bd₁.users_today then bd₁
      else { bd₁ with users_today := bd₁.users_today ++ [user_id] }
    let key := userKey user_id
    let bd₃ : BotData :=
      { bd₂ with
        user_downloads_today :=
          dictSet bd₂.user_downloads_today key (dictGet bd₂.user_downloads_today key + 1) }
    { active_downloads := s₂.active_downloads
      bot_data := bd₃
      saves := s₂.saves ++ [bd₃] }
  else s₁

/-!
Persistence model for save_json_data (src/bot.py lines 71-79). The
function opens the target file with mode w — truncating it in place —
and then json.dump writes the new content into the same file; there is
no temporary file and no rename. We model the write as the sequence of
file operations it performs, so that a crash after any prefix of the
sequence can be examined, and model the caught-exception path (the
function logs and returns False instead of raising).
-/

/-- A primitive file operation performed on the target path. -/
inductive FileOp where
  | truncateFile : String → FileOp
  | writeFile : String → String → FileOp
deriving Repr, DecidableEq

/-- The operation sequence of save_json_data(filename, data): open the
target with mode w (truncate in place), then write the serialized
content. No temporary file, no rename. -/
def save_json_data_ops (filename content : String) : List FileOp :=
  [FileOp.truncateFile filename, FileOp.writeFile filename content]

/-- Effect of one file operation on the target file's content. -/
def applyFileOp (_file : String) : FileOp → String
  | FileOp.truncateFile _ => ""
  | FileOp.writeFile _ c => c

/-- Content of the target file if the process crashes after the first k
operations of the sequence have completed. -/
def fileAfterCrash (oldContent : String) (ops : List FileOp) (k : Nat) : String :=
  (ops.take k).foldl applyFileOp oldContent

/-- Result model of save_json_data: dumpOk says whether the dump raised.
On success the file holds the new content and True is returned; on an
exception the except branch logs and returns False (the write had
already truncated the target), and in either case the in-memory data
passed in is untouched and no exception escapes. -/
def save_json_data (dumpOk : Bool) (oldFile content : String) : Bool × String :=
  if dumpOk then (true, content)
  else (false, fileAfterCrash oldFile (save_json_data_ops "" content) 1)

/-- The duration guard of handle_url (src/bot.py line 661):
if duration and duration > 380. The metadata duration is None or a
number; Python truthiness makes both None and 0 skip the guard. -/
def handle_url_duration_reject (duration : Option Nat) : Bool :=
  match duration with
  | none => false
  | some d => decide (d ≠ 0) && decide (380 < d)

/-!
Control-flow model of the download_video callback handler
(src/bot.py lines 878-1132). Every await on the chat transport and the
outcome of the downloader are abstracted into an environment of branch
outcomes: an edit_message_text call either succeeds or raises, the
download thread returns a success flag, glob either finds the file or
not, and the produced file has a byte size. The handler threads the
real BotLimits state through the calls it actually makes
(can_user_download, start_download, complete_download), and the model
records which complete_download calls happen, in order, together with
whether an exception escaped the handler.
-/

/-- Branch outcomes of one run of download_video: for each await that
can raise, whether it succeeded, plus the downloader results. -/
structure DlEnv where
  urlStored : Bool
  initialEditOk : Bool
  infoOk : Bool
  downloadSuccess : Bool
  editDownloadFailedOk : Bool
  fileFound : Bool
  editNotFoundOk : Bool
  fileExists : Bool
  fileSizeBytes : Nat
  editTooLargeOk : Bool
  editUploadMsgOk : Bool
  sendVideoOk : Bool
  editSuccessOk : Bool
  editUploadFailedOk : Bool
  editNotExistsOk : Bool
  editOuterErrorOk : Bool
deriving Repr, DecidableEq

/-- Exit label of one run of download_video. -/
inductive DlExit where
  | notStarted
  | downloadFailed
  | fileNotFound
  | tooLarge
  | uploaded
  | uploadFailed
  | notExists
  | error
deriving Repr, DecidableEq

/-- Observable outcome of one run of download_video: exit label, the
success flags of the complete_download calls in order, whether
start_download ran, whether the downloaded file was deleted, whether an
exception escaped the handler, and the final BotLimits state. -/
structure DlResult where
  exit : DlExit
  commits : List Bool
  started : Bool
  fileDeleted : Bool
  raisedOut : Bool
  finalState : LimitsState
deriving Repr, DecidableEq

/-- The outer except block of download_video (src/bot.py lines
1118-1125): it awaits an edit_message_text BEFORE calling
complete_download, so when that edit itself raises the handler exits
with no commit and the exception escapes. -/
def download_video_outer_except (env : DlEnv) (current_date : String) (user_id : Nat)
    (s : LimitsState) (commits : List Bool) (fileDeleted : Bool) : DlResult :=
  if env.editOuterErrorOk then
    { exit := DlExit.error
      commits := commits ++ [false]
      started := true
      fileDeleted := fileDeleted
      raisedOut := false
      finalState := complete_download s current_date user_id false }
  else
    { exit := DlExit.error
      commits := commits
      started := true
      fileDeleted := fileDeleted
      raisedOut := true
      finalState := s }

/-- download_video (src/bot.py lines 878-1132): re-check limits, bail
out if no stored URL, mark the download started, then run the body
under the outer try; each complete_download the source performs is
applied to the threaded state. -/
def download_video (env : DlEnv) (s₀ : LimitsState) (current_date : String)
    (user_id : Nat) : DlResult :=
  let s₁ := reset_daily_stats_if_needed s₀ current_date
  if (can_user_download_check s₁ user_id).1 = false then
    { exit := DlExit.notStarted, commits := [], started := false
      fileDeleted := false, raisedOut := false, finalState := s₁ }
  else if env.urlStored = false then
    { exit := DlExit.notStarted, commits := [], started := false
      fileDeleted := false, raisedOut := false, finalState := s₁ }
  else
    let s := start_download s₁ user_id
    if env.initialEditOk = false then
      download_video_outer_except env current_date user_id s [] false
    else if env.infoOk = false then
      download_video_outer_except env current_date user_id s [] false
    else if env.downloadSuccess = false then
      if env.editDownloadFailedOk then
        { exit := DlExit.downloadFailed, commits := [false], started := true
          fileDeleted := false, raisedOut := false
          finalState := complete_download s current_date user_id false }
      else download_video_outer_except env current_date user_id s [] false
    else if env.fileFound = false then
      if env.editNotFoundOk then
        { exit := DlExit.fileNotFound, commits := [false], started := true
          fileDeleted := false, raisedOut := false
          finalState := complete_download s current_date user_id false }
      else download_video_outer_except env current_date user_id s [] false
    else if env.fileExists then
      if 50 * 1024 * 1024 < env.fileSizeBytes then
        if env.editTooLargeOk then
          { exit := DlExit.tooLarge, commits := [false], started := true
            fileDeleted := true, raisedOut := false
            finalState := complete_download s current_date user_id false }
        else download_video_outer_except env current_date user_id s [] false
      else if env.editUploadMsgOk = false then
        download_video_outer_except env current_date user_id s [] false
      else if env.sendVideoOk then
        let s₂ := complete_download s current_date user_id true
        if env.editSuccessOk then
          { exit := DlExit.uploaded, commits := [true], started := true
            fileDeleted := true, raisedOut := false, finalState := s₂ }
        else if env.editUploadFailedOk then
          { exit := DlExit.uploadFailed, commits := [true, false], started := true
            fileDeleted := true, raisedOut := false
            finalState := complete_download s₂ current_date user_id false }
        else download_video_outer_except env current_date user_id s₂ [true] false
      else
        if env.editUploadFailedOk then
          { exit := DlExit.uploadFailed, commits := [false], started := true
            fileDeleted := true, raisedOut := false
            finalState := complete_download s current_date user_id false }
        else download_video_outer_except env current_date user_id s [] false
    else
      if env.editNotExistsOk then
        { exit := DlExit.notExists, commits := [false], started := true
          fileDeleted := false, raisedOut := false
          finalState := complete_download s current_date user_id false }
      else download_video_outer_except env current_date user_id s [] false

/-- A sample BotLimits state with non-trivial counters, used by the
concrete witnesses below. -/
def sampleState : LimitsState :=
  { active_downloads := [7, 9]
    bot_data :=
      { last_reset_date := "2025-01-01"
        total_downloads_today := 3
        users_today := [7, 9]
        user_downloads_today := [("7", 2), ("9", 1)]
        total_users := 5
        total_downloads_all_time := 40
        bot_start_date := "2024-12-01" }
    saves := [] }

/-- C1: for every user id and every quota/active-downloads state, the
admission check evaluates its five conditions in the fixed source
order — (1) user already in active_downloads, (2) active_downloads at
or above max_concurrent_downloads, (3) total_downloads_today at or
above max_total_daily_downloads, (4) users_today at or above
max_users_per_day while the user is not in users_today, (5) the user's
user_downloads_today count at or above max_videos_per_user — returning
the denial reason of the first failing check, and returns allowed
exactly when none of the five conditions holds. -/
theorem can_user_download_check_order (s : LimitsState) (u : Nat) :
    (can_user_download_check s u = (true, Reason.Allowed) ↔
      ¬ u ∈ s.active_downloads
      ∧ ¬ max_concurrent_downloads ≤ s.active_downloads.length
      ∧ ¬ max_total_daily_downloads ≤ s.bot_data.total_downloads_today
      ∧ ¬ (max_users_per_day ≤ s.bot_data.users_today.length ∧ u ∉ s.bot_data.users_today)
      ∧ ¬ max_videos_per_user ≤ dictGet s.bot_data.user_downloads_today (userKey u))
    ∧ (can_user_download_check s u = (false, Reason.AlreadyDownloading) ↔
        u ∈ s.active_downloads)
    ∧ (can_user_download_check s u = (false, Reason.ServerBusy) ↔
        ¬ u ∈ s.active_downloads
        ∧ max_concurrent_downloads ≤ s.active_downloads.length)
    ∧ (can_user_download_check s u = (false, Reason.DailyTotalExceeded) ↔
        ¬ u ∈ s.active_downloads
        ∧ ¬ max_concurrent_downloads ≤ s.active_downloads.length
        ∧ max_total_daily_downloads ≤ s.bot_data.total_downloads_today)
    ∧ (can_user_download_check s u = (false, Reason.DailyUserCapExceeded) ↔
        ¬ u ∈ s.active_downloads
        ∧ ¬ max_concurrent_downloads ≤ s.active_downloads.length
        ∧ ¬ max_total_daily_downloads ≤ s.bot_data.total_downloads_today
        ∧ (max_users_per_day ≤ s.bot_data.users_today.length ∧ u ∉ s.bot_data.users_today))
    ∧ (can_user_download_check s u = (false, Reason.PerUserCapExceeded) ↔
        ¬ u ∈ s.active_downloads
        ∧ ¬ max_concurrent_downloads ≤ s.active_downloads.length
        ∧ ¬ max_total_daily_downloads ≤ s.bot_data.total_downloads_today
        ∧ ¬ (max_users_per_day ≤ s.bot_data.users_today.length ∧ u ∉ s.bot_data.users_today)
        ∧ max_videos_per_user ≤ dictGet s.bot_data.user_downloads_today (userKey u)) := by
  unfold can_user_download_check
  split_ifs <;> simp_all

/-- C3: for every user id and every state, complete_download with
success = false removes the user from active_downloads and changes
nothing else — bot_data (hence every quota-record field) is unchanged
and no save of the quota record occurs. -/
theorem complete_download_failure_frame (s : LimitsState) (current_date : String) (u : Nat) :
    (complete_download s current_date u false).active_downloads
        = s.active_downloads.filter (fun v => v != u)
    ∧ u ∉ (complete_download s current_date u false).active_downloads
    ∧ (complete_download s current_date u false).bot_data = s.bot_data
    ∧ (complete_download s current_date u false).saves = s.saves := by
  unfold complete_download setDiscard
  simp [List.mem_filter]

/-- C5: reset_daily_stats_if_needed is idempotent — running it twice
with the same current date gives the same state as running it once, and
when last_reset_date already equals the current date it changes
nothing. -/
theorem reset_daily_stats_idempotent (s : LimitsState) (current_date : String) :
    reset_daily_stats_if_needed (reset_daily_stats_if_needed s current_date) current_date
      = reset_daily_stats_if_needed s current_date
    ∧ (s.bot_data.last_reset_date = current_date →
        reset_daily_stats_if_needed s current_date = s) := by
  by_cases h : current_date = s.bot_data.last_reset_date
  · refine ⟨?_, fun _ => ?_⟩ <;> simp [reset_daily_stats_if_needed, h]
  · refine ⟨?_, fun h₂ => absurd h₂.symm h⟩
    simp [reset_daily_stats_if_needed, h]

/-- Witness for C5 at a concrete state whose last_reset_date matches. -/
theorem reset_daily_stats_idempotent_witness :
    reset_daily_stats_if_needed (reset_daily_stats_if_needed sampleState "2025-01-01") "2025-01-01"
      = reset_daily_stats_if_needed sampleState "2025-01-01"
    ∧ (sampleState.bot_data.last_reset_date = "2025-01-01" →
        reset_daily_stats_if_needed sampleState "2025-01-01" = sampleState) :=
  reset_daily_stats_idempotent sampleState "2025-01-01"

/-- C7: on a new day, the rollover zeroes total_downloads_today, clears
users_today and user_downloads_today, stamps last_reset_date with the
new date, and leaves total_downloads_all_time, total_users and
bot_start_date at their previous values. -/
theorem reset_new_day_frame (s : LimitsState) (current_date : String)
    (h : current_date ≠ s.bot_data.last_reset_date) :
    (reset_daily_stats_if_needed s current_date).bot_data.total_downloads_today = 0
    ∧ (reset_daily_stats_if_needed s current_date).bot_data.users_today = []
    ∧ (reset_daily_stats_if_needed s current_date).bot_data.user_downloads_today = []
    ∧ (reset_daily_stats_if_needed s current_date).bot_data.last_reset_date = current_date
    ∧ (reset_daily_stats_if_needed s current_date).bot_data.total_downloads_all_time
        = s.bot_data.total_downloads_all_time
    ∧ (reset_daily_stats_if_needed s current_date).bot_data.total_users
        = s.bot_data.total_users
    ∧ (reset_daily_stats_if_needed s current_date).bot_data.bot_start_date
        = s.bot_data.bot_start_date := by
  simp [reset_daily_stats_if_needed, h]

/-- Witness for C7 at a concrete state crossing a day boundary. -/
theorem reset_new_day_frame_witness :
    ("2025-01-02" ≠ sampleState.bot_data.last_reset_date)
    ∧ ((reset_daily_stats_if_needed sampleState "2025-01-02").bot_data.total_downloads_today = 0
       ∧ (reset_daily_stats_if_needed sampleState "2025-01-02").bot_data.users_today = []
       ∧ (reset_daily_stats_if_needed sampleState "2025-01-02").bot_data.user_downloads_today = []
       ∧ (reset_daily_stats_if_needed sampleState "2025-01-02").bot_data.last_reset_date
           = "2025-01-02"
       ∧ (reset_daily_stats_if_needed sampleState "2025-01-02").bot_data.total_downloads_all_time
           = sampleState.bot_data.total_downloads_all_time
       ∧ (reset_daily_stats_if_needed sampleState "2025-01-02").bot_data.total_users
           = sampleState.bot_data.total_users
       ∧ (reset_daily_stats_if_needed sampleState "2025-01-02").bot_data.bot_start_date
           = sampleState.bot_data.bot_start_date) :=
  ⟨by decide, reset_new_day_frame sampleState "2025-01-02" (by decide)⟩

/-- C9: the day rollover clears the entire active_downloads set along
with the daily counters, so a user whose download is still in flight at
the day boundary loses the active-download marker, and the admission
check on the rolled-over state lets that user through (it does not
return AlreadyDownloading — in fact it allows the request). -/
theorem reset_clears_active_downloads (s : LimitsState) (current_date : String) (u : Nat)
    (hday : current_date ≠ s.bot_data.last_reset_date)
    (_hu : u ∈ s.active_downloads) :
    (reset_daily_stats_if_needed s current_date).active_downloads = []
    ∧ u ∉ (reset_daily_stats_if_needed s current_date).active_downloads
    ∧ can_user_download_check (reset_daily_stats_if_needed s current_date) u
        = (true, Reason.Allowed) := by
  simp [reset_daily_stats_if_needed, hday, can_user_download_check, dictGet,
        max_concurrent_downloads, max_total_daily_downloads, max_users_per_day,
        max_videos_per_user]

/-- Witness for C9: user 7 is mid-download in the sample state, and the
rollover to the next day erases the marker and re-admits them. -/
theorem reset_clears_active_downloads_witness :
    ("2025-01-02" ≠ sampleState.bot_data.last_reset_date)
    ∧ 7 ∈ sampleState.active_downloads
    ∧ ((reset_daily_stats_if_needed sampleState "2025-01-02").active_downloads = []
       ∧ 7 ∉ (reset_daily_stats_if_needed sampleState "2025-01-02").active_downloads
       ∧ can_user_download_check (reset_daily_stats_if_needed sampleState "2025-01-02") 7
           = (true, Reason.Allowed)) :=
  ⟨by decide, by decide,
    reset_clears_active_downloads sampleState "2025-01-02" 7 (by decide) (by decide)⟩

/-- C10: the duration guard of handle_url rejects a video exactly when
the reported duration is truthy and strictly greater than 380 seconds;
a missing duration (None) or a reported duration of 0 is never rejected
for length. -/
theorem handle_url_duration_guard (d : Option Nat) :
    (handle_url_duration_reject d = true ↔ ∃ n, d = some n ∧ 380 < n)
    ∧ handle_url_duration_reject none = false
    ∧ handle_url_duration_reject (some 0) = false := by
  refine ⟨?_, rfl, rfl⟩
  cases d with
  | none => simp [handle_url_duration_reject]
  | some n =>
    simp only [handle_url_duration_reject, Bool.and_eq_true, decide_eq_true_eq,
      Option.some.injEq]
    constructor
    · rintro ⟨h₀, h₁⟩
      exact ⟨n, rfl, h₁⟩
    · rintro ⟨m, hm, h₁⟩
      cases hm
      exact ⟨by omega, h₁⟩

/-- Incrementing the entry of one key raises the value sum of the
association list by exactly one (Python dict update semantics). -/
theorem sumValues_dictSet_incr (d : List (String × Nat)) (k : String) :
    sumValues (dictSet d k (dictGet d k + 1)) = sumValues d + 1 := by
  induction d with
  | nil => simp [dictSet, dictGet, sumValues]
  | cons p rest ih =>
    obtain ⟨k₁, v₁⟩ := p
    by_cases h : k₁ = k
    · simp [dictSet, dictGet, h, sumValues]
      omega
    · simp only [dictSet, dictGet, h, if_neg, ite_false, sumValues, List.map_cons,
        List.sum_cons] at ih ⊢
      omega

/-- The rollover is a no-op when last_reset_date already equals the
current date. -/
theorem reset_same_day (s : LimitsState) (d : String)
    (h : s.bot_data.last_reset_date = d) :
    reset_daily_stats_if_needed s d = s := by
  simp [reset_daily_stats_if_needed, h]

/-- One successful commit within the same day preserves the equality of
total_downloads_today with the value sum of user_downloads_today, and
keeps last_reset_date on that day. -/
theorem complete_download_true_step (s : LimitsState) (d : String) (u : Nat)
    (hday : s.bot_data.last_reset_date = d)
    (hinv : s.bot_data.total_downloads_today = sumValues s.bot_data.user_downloads_today) :
    (complete_download s d u true).bot_data.total_downloads_today
      = sumValues (complete_download s d u true).bot_data.user_downloads_today
    ∧ (complete_download s d u true).bot_data.last_reset_date = d := by
  have hreset : reset_daily_stats_if_needed
      { s with active_downloads := setDiscard s.active_downloads u } d
      = { s with active_downloads := setDiscard s.active_downloads u } :=
    reset_same_day _ d hday
  by_cases hmem : u ∈ s.bot_data.users_today
  · simp [complete_download, hreset, hmem, sumValues_dictSet_incr, hinv, hday]
  · simp [complete_download, hreset, hmem, sumValues_dictSet_incr, hinv, hday]

/-- A sequence of successful commits, left to right, each performed as
BotLimits.complete_download(user, success=True) within the same day. -/
def commitRun (s : LimitsState) (d : String) (us : List Nat) : LimitsState :=
  us.foldl (fun st u => complete_download st d u true) s

/-- Every run of same-day successful commits from an invariant-holding
state keeps the invariant and stays on the same day. -/
theorem commitRun_invariant_aux (d : String) (us : List Nat) :
    ∀ s : LimitsState, s.bot_data.last_reset_date = d →
      s.bot_data.total_downloads_today = sumValues s.bot_data.user_downloads_today →
      (commitRun s d us).bot_data.total_downloads_today
        = sumValues (commitRun s d us).bot_data.user_downloads_today
      ∧ (commitRun s d us).bot_data.last_reset_date = d := by
  induction us with
  | nil => intro s h₁ h₂; exact ⟨h₂, h₁⟩
  | cons u rest ih =>
    intro s h₁ h₂
    have step := complete_download_true_step s d u h₁ h₂
    simpa [commitRun] using ih (complete_download s d u true) step.2 step.1

/-- C2: starting from any state in which total_downloads_today equals
the value sum of user_downloads_today, after every call of a sequence
of complete_download(user, success=True) calls within one day (the
state's last_reset_date is the current date, so no rollover fires
between them), total_downloads_today still equals the value sum of
user_downloads_today — stated for every prefix of the call sequence. -/
theorem commit_sum_invariant (s : LimitsState) (d : String) (us : List Nat) (n : Nat)
    (hday : s.bot_data.last_reset_date = d)
    (hinv : s.bot_data.total_downloads_today = sumValues s.bot_data.user_downloads_today) :
    (commitRun s d (us.take n)).bot_data.total_downloads_today
      = sumValues (commitRun s d (us.take n)).bot_data.user_downloads_today :=
  (commitRun_invariant_aux d (us.take n) s hday hinv).1

/-- Witness for C2 on a concrete state and commit sequence. -/
theorem commit_sum_invariant_witness :
    sampleState.bot_data.last_reset_date = "2025-01-01"
    ∧ sampleState.bot_data.total_downloads_today
        = sumValues sampleState.bot_data.user_downloads_today
    ∧ (commitRun sampleState "2025-01-01" ([7, 11, 7].take 2)).bot_data.total_downloads_today
        = sumValues
            (commitRun sampleState "2025-01-01" ([7, 11, 7].take 2)).bot_data.user_downloads_today :=
  ⟨rfl, by decide, commit_sum_invariant sampleState "2025-01-01" [7, 11, 7] 2 rfl (by decide)⟩

/-- A fresh BotLimits state on its reset day, in which every admission
check passes. -/
def freshState : LimitsState :=
  { active_downloads := []
    bot_data :=
      { last_reset_date := "2025-01-01"
        total_downloads_today := 0
        users_today := []
        user_downloads_today := []
        total_users := 0
        total_downloads_all_time := 0
        bot_start_date := "2025-01-01" }
    saves := [] }

/-- Run of download_video in which the metadata probe raises and the
error-notification edit in the outer except block raises as well. -/
def envLeak : DlEnv :=
  { urlStored := true, initialEditOk := true, infoOk := false, downloadSuccess := true
    editDownloadFailedOk := true, fileFound := true, editNotFoundOk := true
    fileExists := true, fileSizeBytes := 1000, editTooLargeOk := true
    editUploadMsgOk := true, sendVideoOk := true, editSuccessOk := true
    editUploadFailedOk := true, editNotExistsOk := true, editOuterErrorOk := false }

/-- Run of download_video in which every step up to and including the
upload succeeds, but the final success-message edit raises. -/
def envDouble : DlEnv :=
  { urlStored := true, initialEditOk := true, infoOk := true, downloadSuccess := true
    editDownloadFailedOk := true, fileFound := true, editNotFoundOk := true
    fileExists := true, fileSizeBytes := 1000, editTooLargeOk := true
    editUploadMsgOk := true, sendVideoOk := true, editSuccessOk := false
    editUploadFailedOk := true, editNotExistsOk := true, editOuterErrorOk := true }

/-- C4 fails on the code: the outer except block of download_video
awaits an edit_message_text before its complete_download call, so when
a download-session error is followed by a failure of that edit the
handler exits having performed markStarted but zero commits, leaving
user 7 in active_downloads; and when the upload succeeds but the final
success-message edit raises, the inner except path performs a second
commit(success=False) after the commit(success=True), two commits for
one markStarted. -/
theorem download_video_slot_leak :
    (download_video envLeak freshState "2025-01-01" 7).started = true
    ∧ (download_video envLeak freshState "2025-01-01" 7).commits = []
    ∧ (download_video envLeak freshState "2025-01-01" 7).raisedOut = true
    ∧ (download_video envLeak freshState "2025-01-01" 7).finalState.active_downloads = [7]
    ∧ (download_video envDouble freshState "2025-01-01" 7).started = true
    ∧ (download_video envDouble freshState "2025-01-01" 7).commits = [true, false] := by
  decide

/-- C8: whenever a run of download_video reaches the size check with a
downloaded file larger than 50 MB (file_size / (1024*1024) > 50, that
is, more than 52428800 bytes) and the too-large notice is delivered,
the session ends in the tooLarge exit: the file is deleted, exactly one
complete_download with success = false runs, the quota record and its
save log stay exactly what the admission-time rollover produced (no
counter incremented, nothing persisted), and the user no longer holds a
slot. -/
theorem download_video_too_large (env : DlEnv) (s : LimitsState) (current_date : String)
    (u : Nat)
    (hallowed : (can_user_download_check (reset_daily_stats_if_needed s current_date) u).1 = true)
    (hurl : env.urlStored = true)
    (h₁ : env.initialEditOk = true)
    (h₂ : env.infoOk = true)
    (h₃ : env.downloadSuccess = true)
    (h₄ : env.fileFound = true)
    (h₅ : env.fileExists = true)
    (hsize : 50 * 1024 * 1024 < env.fileSizeBytes)
    (h₆ : env.editTooLargeOk = true) :
    (download_video env s current_date u).exit = DlExit.tooLarge
    ∧ (download_video env s current_date u).fileDeleted = true
    ∧ (download_video env s current_date u).commits = [false]
    ∧ (download_video env s current_date u).finalState.bot_data
        = (reset_daily_stats_if_needed s current_date).bot_data
    ∧ (download_video env s current_date u).finalState.saves
        = (reset_daily_stats_if_needed s current_date).saves
    ∧ u ∉ (download_video env s current_date u).finalState.active_downloads := by
  unfold download_video
  simp [hallowed, hurl, h₁, h₂, h₃, h₄, h₅, hsize, h₆, complete_download,
    start_download, setDiscard, List.mem_filter]

/-- Run of download_video that produces a 52428801-byte file, one byte
over the 50 MB cap, in which the too-large notification edit raises. -/
def envOversizeEditRaises : DlEnv :=
  { urlStored := true, initialEditOk := true, infoOk := true, downloadSuccess := true
    editDownloadFailedOk := true, fileFound := true, editNotFoundOk := true
    fileExists := true, fileSizeBytes := 52428801, editTooLargeOk := false
    editUploadMsgOk := true, sendVideoOk := true, editSuccessOk := true
    editUploadFailedOk := true, editNotExistsOk := true, editOuterErrorOk := true }

/-- C8 fails as stated on the code: in the too-large branch the
edit_message_text await precedes both os.remove and complete_download
(bot.py lines 1023, 1029, 1030), so on an oversized run whose
too-large notification raises the handler jumps to the generic outer
except — the session does not end in the TooLarge exit and the
oversized file is never deleted (the cleanup at line 1110 is also
unreached), even though the download was started. -/
theorem download_video_too_large_edit_fails :
    52428800 < envOversizeEditRaises.fileSizeBytes
    ∧ (download_video envOversizeEditRaises freshState "2025-01-01" 7).started = true
    ∧ (download_video envOversizeEditRaises freshState "2025-01-01" 7).fileDeleted = false
    ∧ (download_video envOversizeEditRaises freshState "2025-01-01" 7).exit ≠ DlExit.tooLarge
    ∧ (download_video envOversizeEditRaises freshState "2025-01-01" 7).exit = DlExit.error := by
  decide

/-- Run of download_video that produces a 52428801-byte file, one byte
over the 50 MB cap. -/
def envOversize : DlEnv :=
  { urlStored := true, initialEditOk := true, infoOk := true, downloadSuccess := true
    editDownloadFailedOk := true, fileFound := true, editNotFoundOk := true
    fileExists := true, fileSizeBytes := 52428801, editTooLargeOk := true
    editUploadMsgOk := true, sendVideoOk := true, editSuccessOk := true
    editUploadFailedOk := true, editNotExistsOk := true, editOuterErrorOk := true }

/-- Witness for C8 on a concrete oversized download. -/
theorem download_video_too_large_witness :
    ((can_user_download_check (reset_daily_stats_if_needed freshState "2025-01-01") 7).1 = true)
    ∧ envOversize.urlStored = true
    ∧ envOversize.initialEditOk = true
    ∧ envOversize.infoOk = true
    ∧ envOversize.downloadSuccess = true
    ∧ envOversize.fileFound = true
    ∧ envOversize.fileExists = true
    ∧ 50 * 1024 * 1024 < envOversize.fileSizeBytes
    ∧ envOversize.editTooLargeOk = true
    ∧ ((download_video envOversize freshState "2025-01-01" 7).exit = DlExit.tooLarge
       ∧ (download_video envOversize freshState "2025-01-01" 7).fileDeleted = true
       ∧ (download_video envOversize freshState "2025-01-01" 7).commits = [false]
       ∧ (download_video envOversize freshState "2025-01-01" 7).finalState.bot_data
           = (reset_daily_stats_if_needed freshState "2025-01-01").bot_data
       ∧ (download_video envOversize freshState "2025-01-01" 7).finalState.saves
           = (reset_daily_stats_if_needed freshState "2025-01-01").saves
       ∧ 7 ∉ (download_video envOversize freshState "2025-01-01" 7).finalState.active_downloads) :=
  ⟨by decide, rfl, rfl, rfl, rfl, rfl, rfl, by decide, rfl,
    download_video_too_large envOversize freshState "2025-01-01" 7
      (by decide) rfl rfl rfl rfl rfl rfl (by decide) rfl⟩

/-- C6 fails on the code: save_json_data opens the target with mode w,
truncating it in place before json.dump writes the new content — there
is no temporary file and no rename — so at the crash point right after
the truncation the file holds neither the previously committed content
nor the new content. -/
theorem save_json_data_crash_corrupts :
    fileAfterCrash "old" (save_json_data_ops "bot_data.json" "new") 1 ≠ "old"
    ∧ fileAfterCrash "old" (save_json_data_ops "bot_data.json" "new") 1 ≠ "new" := by
  decide

/-- C6 amended: save_json_data persists by truncating the target file
in place and then writing the new content into it, so a crash between
the truncation and the completed write leaves the file empty — neither
the previously committed nor the new content; a completed run leaves
the new content; and a failing dump is caught, the call returning false
instead of raising, so the program keeps running (the in-memory record,
passed by value, is untouched either way). -/
theorem save_json_data_in_place (filename oldFile content : String)
    (hold : oldFile ≠ "") (hnew : content ≠ "") :
    fileAfterCrash oldFile (save_json_data_ops filename content) 0 = oldFile
    ∧ fileAfterCrash oldFile (save_json_data_ops filename content) 1 ≠ oldFile
    ∧ fileAfterCrash oldFile (save_json_data_ops filename content) 1 ≠ content
    ∧ fileAfterCrash oldFile (save_json_data_ops filename content) 2 = content
    ∧ (save_json_data true oldFile content).1 = true
    ∧ (save_json_data true oldFile content).2 = content
    ∧ (save_json_data false oldFile content).1 = false := by
  refine ⟨rfl, ?_, ?_, rfl, rfl, rfl, rfl⟩ <;>
    simp only [fileAfterCrash, save_json_data_ops, List.take, List.foldl, applyFileOp]
  · exact fun h => hold h.symm
  · exact fun h => hnew h.symm

/-- Witness for C6's amended statement at concrete contents. -/
theorem save_json_data_in_place_witness :
    ("old" ≠ "") ∧ ("new" ≠ "")
    ∧ (fileAfterCrash "old" (save_json_data_ops "data.json" "new") 0 = "old"
       ∧ fileAfterCrash "old" (save_json_data_ops "data.json" "new") 1 ≠ "old"
       ∧ fileAfterCrash "old" (save_json_data_ops "data.json" "new") 1 ≠ "new"
       ∧ fileAfterCrash "old" (save_json_data_ops "data.json" "new") 2 = "new"
       ∧ (save_json_data true "old" "new").1 = true
       ∧ (save_json_data true "old" "new").2 = "new"
       ∧ (save_json_data false "old" "new").1 = false) :=
  ⟨by decide, by decide, save_json_data_in_place "data.json" "old" "new" (by decide) (by decide)⟩
